import Mathlib

/-!
Shallow embedding of the go-selfupdate package (package selfupdate,
file selfupdate.go).

Modelling conventions:
* Go byte slices and strings are lists of naturals (byte values; all
  literals used here are ASCII).
* Go time.Time and time.Duration are integers (nanoseconds); the Go zero
  time (January 1 of year 1 UTC) is the corresponding negative number of
  nanoseconds before the Unix epoch, and t.After(u) is u < t.
* External collaborators (the HTTP fetch capability, the bsdiff patcher,
  the gzip decompressor, the JSON decoder, the RFC3339 parser, the
  filesystem and the install capability from go-update) are oracles:
  explicit parameters recording the outcome the environment produces.
  The code of this repository itself is translated directly.
* Go errors are an inductive type: distinct errors.New or fmt.Errorf
  values are distinct constructors and errors.Wrapf builds a wrapper, so
  a Go pointer comparison err == ErrHashMismatch is structural equality
  with the bare constructor, which a wrapped error fails.
-/

/-- A Go byte slice: a list of byte values. -/
abbrev Bytes := List Nat

/-- A Go string, viewed as its bytes (ASCII throughout this development). -/
abbrev GoStr := List Nat

/-- Bytes of an ASCII Lean string literal. -/
def strBytes (s : String) : GoStr := s.data.map Char.toNat

/-- Go time.Time as nanoseconds relative to the Unix epoch. -/
abbrev Time := Int

/-- Go time.Duration in nanoseconds. -/
abbrev Duration := Int

/-- One hour in nanoseconds (Go time.Hour). -/
def hour : Int := 3600000000000

/-- The Go zero time time.Time\x7b\x7d: January 1, year 1 UTC, far in the past. -/
def timeZero : Time := -62135596800000000000

/-- Go t.After(u): strictly later. -/
def timeAfter (t u : Time) : Bool := decide (u < t)

/-! ## SHA-256 (crypto/sha256), over byte lists, FIPS 180-4 -/

/-- 2^32, the modulus for 32-bit words. -/
def w32mod : Nat := 4294967296

/-- Rotate a 32-bit word right by n bits. -/
def rotr32 (n x : Nat) : Nat := ((x / 2 ^ n) + (x % 2 ^ n) * 2 ^ (32 - n)) % w32mod

/-- Shift a 32-bit word right by n bits. -/
def shr32 (n x : Nat) : Nat := x / 2 ^ n

def bigSigma0 (x : Nat) : Nat := rotr32 2 x ^^^ rotr32 13 x ^^^ rotr32 22 x

def bigSigma1 (x : Nat) : Nat := rotr32 6 x ^^^ rotr32 11 x ^^^ rotr32 25 x

def smallSigma0 (x : Nat) : Nat := rotr32 7 x ^^^ rotr32 18 x ^^^ shr32 3 x

def smallSigma1 (x : Nat) : Nat := rotr32 17 x ^^^ rotr32 19 x ^^^ shr32 10 x

def ch (e f g : Nat) : Nat := (e &&& f) ^^^ ((e ^^^ 4294967295) &&& g)

def maj (a b c : Nat) : Nat := (a &&& b) ^^^ (a &&& c) ^^^ (b &&& c)

/-- The 64 SHA-256 round constants. -/
def K256 : List Nat :=
  [1116352408, 1899447441, 3049323471, 3921009573,
   961987163, 1508970993, 2453635748, 2870763221,
   3624381080, 310598401, 607225278, 1426881987,
   1925078388, 2162078206, 2614888103, 3248222580,
   3835390401, 4022224774, 264347078, 604807628,
   770255983, 1249150122, 1555081692, 1996064986,
   2554220882, 2821834349, 2952996808, 3210313671,
   3336571891, 3584528711, 113926993, 338241895,
   666307205, 773529912, 1294757372, 1396182291,
   1695183700, 1986661051, 2177026350, 2456956037,
   2730485921, 2820302411, 3259730800, 3345764771,
   3516065817, 3600352804, 4094571909, 275423344,
   430227734, 506948616, 659060556, 883997877,
   958139571, 1322822218, 1537002063, 1747873779,
   1955562222, 2024104815, 2227730452, 2361852424,
   2428436474, 2756734187, 3204031479, 3329325298]

/-- The working state of the compression function: eight 32-bit words. -/
structure Hash8 where
  a : Nat
  b : Nat
  c : Nat
  d : Nat
  e : Nat
  f : Nat
  g : Nat
  h : Nat
deriving DecidableEq, Repr

/-- The SHA-256 initial hash value. -/
def sha256IV : Hash8 :=
  ⟨1779033703, 3144134277, 1013904242, 2773480762,
   1359893119, 2600822924, 528734635, 1541459225⟩

/-- Big-endian bytes of v, width n. -/
def beBytes : Nat → Nat → List Nat
  | 0, _ => []
  | n + 1, v => beBytes n (v / 256) ++ [v % 256]

/-- SHA-256 padding: append 0x80, zeros, and the 64-bit big-endian bit length. -/
def padMsg (msg : List Nat) : List Nat :=
  let l := msg.length
  let zeros := (64 - (l + 9) % 64) % 64
  msg ++ [128] ++ List.replicate zeros 0 ++ beBytes 8 (8 * l)

/-- Group four big-endian bytes at a time into 32-bit words. -/
def toWords : List Nat → List Nat
  | b0 :: b1 :: b2 :: b3 :: rest =>
      (((b0 * 256 + b1) * 256 + b2) * 256 + b3) :: toWords rest
  | _ => []

/-- One step of the message-schedule extension. -/
def schedStep (ws : List Nat) : List Nat :=
  let n := ws.length
  ws ++ [(smallSigma1 (ws.getD (n - 2) 0) + ws.getD (n - 7) 0 +
          smallSigma0 (ws.getD (n - 15) 0) + ws.getD (n - 16) 0) % w32mod]

/-- Extend sixteen words to the 64-entry message schedule. -/
def schedule (ws : List Nat) : List Nat :=
  (List.range 48).foldl (fun acc _ => schedStep acc) ws

/-- One round of the SHA-256 compression function (constant paired with word). -/
def compressStep (st : Hash8) (kw : Nat × Nat) : Hash8 :=
  let t1 := (st.h + bigSigma1 st.e + ch st.e st.f st.g + kw.1 + kw.2) % w32mod
  let t2 := (bigSigma0 st.a + maj st.a st.b st.c) % w32mod
  ⟨(t1 + t2) % w32mod, st.a, st.b, st.c, (st.d + t1) % w32mod, st.e, st.f, st.g⟩

/-- Process one 64-byte block. -/
def compressBlock (st : Hash8) (block : List Nat) : Hash8 :=
  let ws := schedule (toWords block)
  let t := (K256.zip ws).foldl compressStep st
  ⟨(st.a + t.a) % w32mod, (st.b + t.b) % w32mod, (st.c + t.c) % w32mod,
   (st.d + t.d) % w32mod, (st.e + t.e) % w32mod, (st.f + t.f) % w32mod,
   (st.g + t.g) % w32mod, (st.h + t.h) % w32mod⟩

/-- SHA-256 of a byte list: the 32-byte digest (crypto/sha256 Sum). -/
def sha256Bytes (msg : List Nat) : List Nat :=
  let padded := padMsg msg
  let blocks := (List.range (padded.length / 64)).map
    (fun i => (padded.drop (64 * i)).take 64)
  let st := blocks.foldl compressBlock sha256IV
  ([st.a, st.b, st.c, st.d, st.e, st.f, st.g, st.h]).flatMap (beBytes 4)

/-- Go bytes.Equal: same length and same contents. -/
def bytesEqual (a b : Bytes) : Bool := a == b

/-- verifySha from selfupdate.go: hash the binary and compare with the
expected digest (the mismatch branch only logs). -/
def verifySha (bin sha : Bytes) : Bool := bytesEqual (sha256Bytes bin) sha

/-! ## Percent escaping (net/url QueryEscape) -/

/-- Bytes left unescaped by Go url.QueryEscape: alphanumerics and -_.~ -/
def isUnreservedByte (c : Nat) : Bool :=
  (65 ≤ c && c ≤ 90) || (97 ≤ c && c ≤ 122) || (48 ≤ c && c ≤ 57) ||
  c == 45 || c == 95 || c == 46 || c == 126

/-- Uppercase hex digit byte for a nibble. -/
def hexDigitByte (n : Nat) : Nat := if n < 10 then 48 + n else 55 + n

/-- Escape a single byte as url.QueryEscape does: unreserved bytes kept,
space becomes a plus sign, everything else percent-encoded. -/
def escapeByte (c : Nat) : List Nat :=
  if isUnreservedByte c then [c]
  else if c == 32 then [43]
  else [37, hexDigitByte (c / 16), hexDigitByte (c % 16)]

/-- Go url.QueryEscape over the bytes of a string. -/
def queryEscape (s : GoStr) : GoStr := s.flatMap escapeByte

/-! ## Errors (pkg/errors and the package error values) -/

/-- Go error values as this package distinguishes them.  Pointer equality
of two errors (err == ErrHashMismatch) is structural equality here:
a wrapped error differs from the bare value it wraps. -/
inductive GoErr where
  /-- ErrHashMismatch = errors.New("new file hash mismatch after patch") -/
  | hashMismatch : GoErr
  /-- errors.Wrapf(cause, ...): a new value carrying its cause. -/
  | wrapped : GoErr → GoErr
  /-- Any other distinct error value (errors.New / errors.Errorf /
  fmt.Errorf or an error produced by an external collaborator). -/
  | msg : Nat → GoErr
  /-- fmt.Errorf("update and recovery errors: %q %q", err, errRecover)
  when both are non-nil. -/
  | combined : GoErr → GoErr → GoErr
  /-- The same fmt.Errorf when the primary install error is nil but the
  recovery error is not. -/
  | combinedNilPrimary : GoErr → GoErr
deriving DecidableEq, Repr

/-- errors.Cause: follow the wrappers down to the root error. -/
def GoErr.cause : GoErr → GoErr
  | .wrapped e => e.cause
  | e => e

/-- The errors.Errorf("Bad cmd hash in JSON info") value in fetchInfo. -/
def badHashInfoErr : GoErr := .msg 1

/-! ## Updater data model -/

/-- The anonymous Info struct of Updater: latest version and digest. -/
structure VersionInfo where
  Version : GoStr
  Sha256 : Bytes
deriving DecidableEq, Repr

/-- Updater from selfupdate.go (the Requester is modelled by oracles). -/
structure Updater where
  CurrentVersion : GoStr
  ApiURL : GoStr
  CmdName : GoStr
  BinURL : GoStr
  DiffURL : GoStr
  Dir : GoStr
  ForceCheck : Bool
  Info : VersionInfo
deriving DecidableEq, Repr

/-! ## fetchInfo -/

/-- Outcome of the fetch plus JSON decode inside fetchInfo, as the
environment produces it: transport failure, decode failure, or a decoded
Version / Sha256 pair. -/
inductive InfoResp where
  | fetchErr : GoErr → InfoResp
  | decodeErr : GoErr → InfoResp
  | decoded : GoStr → Bytes → InfoResp
deriving DecidableEq, Repr

/-- fetchInfo: fetch the json, decode it INTO u.Info (the decoder mutates
the receiver before the digest-length check), then reject a digest whose
length is not sha256.Size = 32.  Returns the error and the updater as the
call leaves it. -/
def Updater.fetchInfo (u : Updater) (resp : InfoResp) : Option GoErr × Updater :=
  match resp with
  | .fetchErr e => (some (.wrapped e), u)
  | .decodeErr e => (some (.wrapped e), u)
  | .decoded v sha =>
    let u2 := { u with Info := ⟨v, sha⟩ }
    if u2.Info.Sha256.length ≠ 32 then (some badHashInfoErr, u2)
    else (none, u2)


/-! ## Patch path (fetchAndApplyPatch, fetchAndVerifyPatch) -/

/-- Environment for the patch path: the fetch capability as a function
from the requested URL to its outcome, and binarydist.Patch applied to
the old executable bytes and the patch blob. -/
structure PatchEnv where
  fetchResult : GoStr → Except GoErr Bytes
  patchApply : Bytes → Bytes → Except GoErr Bytes

/-- fetchAndApplyPatch: build the patch URL
DiffURL + Sprintf of escaped CmdName / CurrentVersion / Info.Version / platform,
fetch it, and run binarydist.Patch against the old binary.  The second
component records the URLs requested from the fetch capability. -/
def Updater.fetchAndApplyPatch (u : Updater) (plat : GoStr) (env : PatchEnv)
    (old : Bytes) : Except GoErr Bytes × List GoStr :=
  let patchUrl := u.DiffURL ++ queryEscape u.CmdName ++ [47] ++
    queryEscape u.CurrentVersion ++ [47] ++ queryEscape u.Info.Version ++ [47] ++
    queryEscape plat
  match env.fetchResult patchUrl with
  | .error e => (.error (.wrapped e), [patchUrl])
  | .ok blob =>
    match env.patchApply old blob with
    | .error e => (.error (.wrapped e), [patchUrl])
    | .ok newBin => (.ok newBin, [patchUrl])

/-- fetchAndVerifyPatch: fetch and apply the patch (wrapping its error),
then reject the result with the bare ErrHashMismatch when its digest does
not match Info.Sha256. -/
def Updater.fetchAndVerifyPatch (u : Updater) (plat : GoStr) (env : PatchEnv)
    (old : Bytes) : Except GoErr Bytes × List GoStr :=
  match u.fetchAndApplyPatch plat env old with
  | (.error e, tr) => (.error (.wrapped e), tr)
  | (.ok bin, tr) =>
    if !verifySha bin u.Info.Sha256 then (.error .hashMismatch, tr)
    else (.ok bin, tr)

/-! ## Full-binary path (fetchBin, fetchAndVerifyFullBin) -/

/-- Environment for the full-binary path: the fetch capability and the
gzip decompression of the fetched body (gzip.NewReader + io.Copy). -/
structure BinEnv where
  fetchResult : GoStr → Except GoErr Bytes
  gunzip : Bytes → Except GoErr Bytes

/-- fetchBin: build the full-binary URL
BinURL + Sprintf of escaped CmdName / Info.Version / platform + ".gz",
fetch it and decompress. -/
def Updater.fetchBin (u : Updater) (plat : GoStr) (env : BinEnv) :
    Except GoErr Bytes :=
  let fetchUrl := u.BinURL ++ queryEscape u.CmdName ++ [47] ++
    queryEscape u.Info.Version ++ [47] ++ queryEscape plat ++ strBytes (".gz")
  match env.fetchResult fetchUrl with
  | .error e => .error (.wrapped e)
  | .ok blob =>
    match env.gunzip blob with
    | .error e => .error (.wrapped e)
    | .ok bin => .ok bin

/-- fetchAndVerifyFullBin: fetch the full binary (wrapping its error) and
reject it with a WRAPPED ErrHashMismatch (errors.Wrapf(ErrHashMismatch,
"Hash mismatch")) when its digest does not match Info.Sha256. -/
def Updater.fetchAndVerifyFullBin (u : Updater) (plat : GoStr) (env : BinEnv) :
    Except GoErr Bytes :=
  match u.fetchBin plat env with
  | .error e => .error (.wrapped e)
  | .ok bin =>
    if !verifySha bin u.Info.Sha256 then .error (.wrapped .hashMismatch)
    else .ok bin

/-! ## update orchestrator -/

/-- The external capabilities update can invoke, for the run trace. -/
inductive Cap where
  | patchFetch : Cap
  | fullFetch : Cap
  | install : Cap
deriving DecidableEq, Repr

/-- Environment of one update run: executable-path lookup and open
outcomes, the metadata response, the two fetch paths, the bytes of the
currently running executable, and the (err, errRecover) pair that
up.FromStream reports. -/
structure UpdateEnv where
  execPathOk : Bool
  openOk : Bool
  infoResp : InfoResp
  patchEnv : PatchEnv
  binEnv : BinEnv
  oldBin : Bytes
  installResult : Option GoErr × Option GoErr

/-- The tail of update after a candidate binary is at hand: hand it to
up.FromStream and translate its (err, errRecover) pair. -/
def installFromStream (u : Updater) (env : UpdateEnv) (caps : List Cap) :
    Option GoErr × Updater × List Cap :=
  let caps2 := caps ++ [Cap.install]
  match env.installResult with
  | (some e, some r) => (some (.combined e r), u, caps2)
  | (none, some r) => (some (.combinedNilPrimary r), u, caps2)
  | (some e, none) => (some e, u, caps2)
  | (none, none) => (none, u, caps2)

/-- update from selfupdate.go: resolve and open self, fetchInfo, return
nil if already at the latest version, try the patch path, fall back to
the full-binary path on any patch-path error, and install the verified
bytes.  Returns the final error, the updater (Info mutated by fetchInfo)
and the trace of capabilities invoked. -/
def Updater.update (u : Updater) (plat : GoStr) (env : UpdateEnv) :
    Option GoErr × Updater × List Cap :=
  if !env.execPathOk then (some (.wrapped (.msg 10)), u, [])
  else if !env.openOk then (some (.wrapped (.msg 11)), u, [])
  else
    match u.fetchInfo env.infoResp with
    | (some e, u2) => (some (.wrapped e), u2, [])
    | (none, u2) =>
      if u2.Info.Version = u.CurrentVersion then (none, u2, [])
      else
        match (u2.fetchAndVerifyPatch plat env.patchEnv env.oldBin).1 with
        | .ok bin => installFromStream u2 { env with oldBin := bin } [Cap.patchFetch]
        | .error _ =>
          match u2.fetchAndVerifyFullBin plat env.binEnv with
          | .error e2 => (some e2, u2, [Cap.patchFetch, Cap.fullFetch])
          | .ok _ => installFromStream u2 env [Cap.patchFetch, Cap.fullFetch]

/-! ## Check scheduler (readTime, writeTime, wantUpdate) -/

/-- The state of the cktime token file as readTime's two oracles
(ioutil.ReadFile and time.Parse RFC3339) report it: the file is missing,
the read fails with a non-IsNotExist error, the content does not parse
as RFC3339, or it parses to a timestamp. -/
inductive FileState where
  | missing : FileState
  | unreadable : FileState
  | unparseable : FileState
  | timestamp : Time → FileState
deriving DecidableEq, Repr

/-- readTime from selfupdate.go: the Go zero time when the file does not
exist, now plus 1000 hours on any other read error or on a parse error,
and the parsed timestamp otherwise. -/
def readTime (fs : FileState) (now : Time) : Time :=
  match fs with
  | .missing => timeZero
  | .unreadable => now + 1000 * hour
  | .unparseable => now + 1000 * hour
  | .timestamp t => t

/-- Environment of one wantUpdate call: whether getExecRelativeDir
succeeds, the token-file state, the current time, the value
rand.Int63n(24h) returns inside randDuration, and whether the
ioutil.WriteFile inside writeTime succeeds. -/
structure SchedEnv where
  pathOk : Bool
  fs : FileState
  now : Time
  r : Duration
  writeOk : Bool
deriving DecidableEq, Repr

/-- Result of wantUpdate: the boolean it returns, the token-file state it
leaves behind, and whether a writeTime call was attempted at all. -/
structure SchedOut where
  result : Bool
  fs : FileState
  wrote : Bool
deriving DecidableEq, Repr

/-- The development sentinel version string. -/
def devStr : GoStr := strBytes ("dev")

/-- wantUpdate from selfupdate.go: false on a path-resolution error;
false when CurrentVersion is the dev sentinel or when ForceCheck is
unset and the stored token is still in the future; otherwise writeTime
a new deadline now + 24h + randDuration(24h) and return whether the
write succeeded.  A failed write leaves the file state unchanged. -/
def Updater.wantUpdate (u : Updater) (env : SchedEnv) : SchedOut :=
  if env.pathOk = false then ⟨false, env.fs, false⟩
  else if u.CurrentVersion = devStr ∨
      (u.ForceCheck = false ∧ timeAfter (readTime env.fs env.now) env.now = true) then
    ⟨false, env.fs, false⟩
  else
    let wait : Duration := 24 * hour + env.r
    if env.writeOk then ⟨true, .timestamp (env.now + wait), true⟩
    else ⟨false, env.fs, true⟩

/-! ## Sample configurations for concrete instantiations -/

/-- A sample updater with a non-dev current version. -/
def sampleUpdater : Updater :=
  ⟨strBytes ("1.0.0"), strBytes ("http://api/"), strBytes ("myapp"),
   strBytes ("http://bin/"), strBytes ("http://diff/"), strBytes ("update/"),
   false, ⟨[], []⟩⟩

/-! ## Theorems about the claims -/

/-- C6: for every byte buffer, including the empty one, and every digest,
verifySha returns true exactly when the SHA-256 hash of the buffer equals
the digest byte for byte. -/
theorem verifySha_iff (bin sha : Bytes) :
    verifySha bin sha = true ↔ sha256Bytes bin = sha := by
  simp [verifySha, bytesEqual]

/-- C1: the check-token read policy of readTime.  A missing file yields the
zero time, which is never after the current time, so the scheduler treats
the check as due; a file that exists but cannot be read, or whose content
does not parse as RFC3339, yields now plus 1000 hours, which is after the
current time, so the check is skipped; and every outcome is the zero time,
the far-future time, or the parsed timestamp of the file. -/
theorem readTime_policy (fs : FileState) (now : Time) (hnow : 0 ≤ now) :
    (fs = .missing → readTime fs now = timeZero ∧ timeAfter (readTime fs now) now = false)
  ∧ (fs = .unreadable → readTime fs now = now + 1000 * hour ∧ timeAfter (readTime fs now) now = true)
  ∧ (fs = .unparseable → readTime fs now = now + 1000 * hour ∧ timeAfter (readTime fs now) now = true)
  ∧ (readTime fs now = timeZero ∨ readTime fs now = now + 1000 * hour ∨
      ∃ t, fs = .timestamp t ∧ readTime fs now = t) := by
  refine ⟨fun h => ?_, fun h => ?_, fun h => ?_, ?_⟩
  · subst h
    refine ⟨rfl, ?_⟩
    simp [readTime, timeAfter, timeZero]
    linarith
  · subst h
    refine ⟨rfl, ?_⟩
    simp [readTime, timeAfter, hour]
  · subst h
    refine ⟨rfl, ?_⟩
    simp [readTime, timeAfter, hour]
  · cases fs with
    | missing => exact Or.inl rfl
    | unreadable => exact Or.inr (Or.inl rfl)
    | unparseable => exact Or.inr (Or.inl rfl)
    | timestamp t => exact Or.inr (Or.inr ⟨t, rfl, rfl⟩)

/-- Witness for C1 at a concrete time: a missing token file reads as the
zero time and is not in the future. -/
theorem readTime_policy_witness :
    readTime .missing 3 = timeZero ∧ timeAfter (readTime .missing 3) 3 = false :=
  (readTime_policy .missing 3 (by decide)).1 rfl

/-- C2: for every configuration, the patch path requests exactly one URL,
namely the diff base followed by the percent-escaped command name, current
version, target version and platform, in that fixed order, separated by
slashes (byte 47). -/
theorem fetchAndApplyPatch_url (u : Updater) (plat : GoStr) (env : PatchEnv) (old : Bytes) :
    (u.fetchAndApplyPatch plat env old).2 =
      [u.DiffURL ++ queryEscape u.CmdName ++ [47] ++ queryEscape u.CurrentVersion ++ [47] ++
       queryEscape u.Info.Version ++ [47] ++ queryEscape plat] := by
  unfold Updater.fetchAndApplyPatch
  dsimp only
  split
  · rfl
  · split <;> rfl

/-- C10: when the decoded metadata has a digest whose length is not 32,
fetchInfo returns the bad-hash error, yet the updater keeps the freshly
decoded Version and Sha256 values rather than the ones held before. -/
theorem fetchInfo_keepsDecoded (u : Updater) (v : GoStr) (sha : Bytes)
    (h : sha.length ≠ 32) :
    (u.fetchInfo (.decoded v sha)).1 = some badHashInfoErr ∧
    (u.fetchInfo (.decoded v sha)).2.Info = ⟨v, sha⟩ := by
  simp [Updater.fetchInfo, h]

/-- Witness for C10: an updater holding older Info values ends the failed
call holding the malformed decoded pair, which differs from what it held
before the call. -/
theorem fetchInfo_keepsDecoded_witness :
    ((({ sampleUpdater with
          Info := ⟨strBytes ("1.0.0"), List.replicate 32 7⟩ } : Updater).fetchInfo
        (.decoded (strBytes ("2.0.0")) [0])).1 = some badHashInfoErr ∧
     (({ sampleUpdater with
          Info := ⟨strBytes ("1.0.0"), List.replicate 32 7⟩ } : Updater).fetchInfo
        (.decoded (strBytes ("2.0.0")) [0])).2.Info = ⟨strBytes ("2.0.0"), [0]⟩) ∧
    ({ sampleUpdater with
        Info := ⟨strBytes ("1.0.0"), List.replicate 32 7⟩ } : Updater).Info ≠
      ⟨strBytes ("2.0.0"), [0]⟩ :=
  ⟨fetchInfo_keepsDecoded _ _ _ (by decide), by decide⟩

/-- C7: with the dev sentinel as current version, wantUpdate returns false
and neither rewrites nor attempts to rewrite the token file, for every
token state and every ForceCheck value. -/
theorem wantUpdate_dev (u : Updater) (env : SchedEnv) (h : u.CurrentVersion = devStr) :
    u.wantUpdate env = ⟨false, env.fs, false⟩ := by
  unfold Updater.wantUpdate
  by_cases hp : env.pathOk = false
  · simp [hp]
  · simp [hp, h]

/-- Witness for C7 at a concrete dev-version updater with ForceCheck set
and a token in the past. -/
theorem wantUpdate_dev_witness :
    Updater.wantUpdate { sampleUpdater with CurrentVersion := devStr, ForceCheck := true }
      ⟨true, .timestamp (-5), 0, 7, true⟩ = ⟨false, .timestamp (-5), false⟩ :=
  wantUpdate_dev _ _ rfl

/-- Counterexample to C8 as stated: a token strictly in the future by one
hour, less than 48 hours, yet with ForceCheck set wantUpdate returns true
and rewrites the token file. -/
theorem wantUpdate_futureToken_cex :
    (Updater.wantUpdate { sampleUpdater with ForceCheck := true }
        ⟨true, .timestamp hour, 0, 0, true⟩).result = true ∧
    (Updater.wantUpdate { sampleUpdater with ForceCheck := true }
        ⟨true, .timestamp hour, 0, 0, true⟩).fs ≠ FileState.timestamp hour ∧
    (0 : Int) < hour ∧ hour < 0 + 48 * hour := by decide

/-- C8 amended: when ForceCheck is unset and the stored token is strictly
in the future (in particular by less than 48 hours), wantUpdate returns
false and leaves the token file untouched, attempting no write. -/
theorem wantUpdate_futureToken (u : Updater) (env : SchedEnv) (t : Time)
    (hfc : u.ForceCheck = false) (hfs : env.fs = .timestamp t)
    (hfut : env.now < t) (hlt : t < env.now + 48 * hour) :
    u.wantUpdate env = ⟨false, env.fs, false⟩ := by
  unfold Updater.wantUpdate
  by_cases hp : env.pathOk = false
  · simp [hp]
  · have hafter : timeAfter (readTime env.fs env.now) env.now = true := by
      rw [hfs]
      simp [readTime, timeAfter, hfut]
    simp [hp, hafter, hfc]

/-- Witness for the amended C8: a token one hour in the future with
ForceCheck unset suppresses the check and leaves the file as it was. -/
theorem wantUpdate_futureToken_witness :
    Updater.wantUpdate sampleUpdater ⟨true, .timestamp hour, 0, 3, true⟩ =
      ⟨false, .timestamp hour, false⟩ :=
  wantUpdate_futureToken _ _ hour rfl rfl (by decide) (by decide)

/-- C9: whenever a check is due (non-dev version, and ForceCheck set or
token not in the future), wantUpdate attempts exactly one token write with
deadline now + 24h + r, where r is the value rand.Int63n(24h) produced in
[0, 24h), and it returns true precisely when that write succeeded; after a
failed write it returns false. -/
theorem wantUpdate_persist (u : Updater) (env : SchedEnv)
    (hpath : env.pathOk = true)
    (hdev : u.CurrentVersion ≠ devStr)
    (hdue : u.ForceCheck = true ∨ timeAfter (readTime env.fs env.now) env.now = false)
    (hr0 : 0 ≤ env.r) (hr1 : env.r < 24 * hour) :
    (u.wantUpdate env).wrote = true ∧
    (u.wantUpdate env).result = env.writeOk ∧
    (env.writeOk = true →
      (u.wantUpdate env).fs = .timestamp (env.now + (24 * hour + env.r))) ∧
    (env.writeOk = false → (u.wantUpdate env).result = false) := by
  have hcond : ¬(u.CurrentVersion = devStr ∨
      (u.ForceCheck = false ∧ timeAfter (readTime env.fs env.now) env.now = true)) := by
    rintro (h | ⟨hf, ha⟩)
    · exact hdev h
    · rcases hdue with h1 | h1
      · rw [h1] at hf; cases hf
      · rw [h1] at ha; cases ha
  unfold Updater.wantUpdate
  rw [hpath]
  by_cases hw : env.writeOk
  · simp [hw, hcond]
  · simp [hw, hcond]

/-- Witness for C9 at a concrete due check (ForceCheck set) with a
successful write: the token becomes now + 24h + r and the call returns
the write outcome. -/
theorem wantUpdate_persist_witness :
    (Updater.wantUpdate { sampleUpdater with ForceCheck := true }
        ⟨true, .timestamp hour, 0, 5, true⟩).wrote = true ∧
    (Updater.wantUpdate { sampleUpdater with ForceCheck := true }
        ⟨true, .timestamp hour, 0, 5, true⟩).result =
      (⟨true, .timestamp hour, 0, 5, true⟩ : SchedEnv).writeOk ∧
    ((⟨true, .timestamp hour, 0, 5, true⟩ : SchedEnv).writeOk = true →
      (Updater.wantUpdate { sampleUpdater with ForceCheck := true }
        ⟨true, .timestamp hour, 0, 5, true⟩).fs =
        .timestamp ((0 : Int) + (24 * hour + 5))) ∧
    ((⟨true, .timestamp hour, 0, 5, true⟩ : SchedEnv).writeOk = false →
      (Updater.wantUpdate { sampleUpdater with ForceCheck := true }
        ⟨true, .timestamp hour, 0, 5, true⟩).result = false) :=
  wantUpdate_persist _ _ rfl (by decide) (Or.inl rfl) (by decide) (by decide)

/-- C3: when the resolved metadata carries a well-formed digest and a
Version equal to the current version, update returns no error and invokes
none of the patch fetch, the full-binary fetch, or the install capability
(the capability trace is empty). -/
theorem update_alreadyLatest (u : Updater) (plat : GoStr) (env : UpdateEnv)
    (v : GoStr) (sha : Bytes)
    (h1 : env.execPathOk = true) (h2 : env.openOk = true)
    (h3 : env.infoResp = .decoded v sha) (h4 : sha.length = 32)
    (h5 : v = u.CurrentVersion) :
    u.update plat env = (none, { u with Info := ⟨v, sha⟩ }, []) := by
  unfold Updater.update Updater.fetchInfo
  rw [h1, h2, h3]
  simp [h4, h5]

/-- Witness for C3: a concrete run whose metadata matches the current
version ends with no error and an empty capability trace. -/
theorem update_alreadyLatest_witness :
    Updater.update sampleUpdater (strBytes ("linux-amd64"))
      ⟨true, true, .decoded (strBytes ("1.0.0")) (List.replicate 32 0),
       ⟨fun _ => .error (.msg 2), fun _ _ => .error (.msg 3)⟩,
       ⟨fun _ => .error (.msg 4), fun _ => .error (.msg 5)⟩,
       [], (none, none)⟩ =
      (none, { sampleUpdater with Info := ⟨strBytes ("1.0.0"), List.replicate 32 0⟩ }, []) :=
  update_alreadyLatest _ _ _ _ _ rfl rfl rfl (by decide) rfl

/-- C4: when the patch path fails with any error, update falls back to the
full-binary path; if that path produces bytes with the expected digest and
the install succeeds, update returns no error (the patch-path error is not
surfaced) after invoking patch fetch, full fetch and install. -/
theorem update_patchFallback (u : Updater) (plat : GoStr) (env : UpdateEnv)
    (v : GoStr) (sha : Bytes) (e : GoErr) (bin : Bytes)
    (h1 : env.execPathOk = true) (h2 : env.openOk = true)
    (h3 : env.infoResp = .decoded v sha) (h4 : sha.length = 32)
    (h5 : v ≠ u.CurrentVersion)
    (hp : (Updater.fetchAndVerifyPatch { u with Info := ⟨v, sha⟩ } plat
        env.patchEnv env.oldBin).1 = .error e)
    (hf : Updater.fetchBin { u with Info := ⟨v, sha⟩ } plat env.binEnv = .ok bin)
    (hv : verifySha bin sha = true)
    (hi : env.installResult = (none, none)) :
    u.update plat env =
      (none, { u with Info := ⟨v, sha⟩ },
        [Cap.patchFetch, Cap.fullFetch, Cap.install]) := by
  unfold Updater.update Updater.fetchInfo
  rw [h1, h2, h3]
  simp [h4, h5]
  rw [hp]
  unfold Updater.fetchAndVerifyFullBin
  rw [hf]
  simp [hv]
  unfold installFromStream
  simp [hi]

/-- Witness for C4: the patch fetch fails with a transport error, the full
binary is the empty buffer whose digest matches the metadata, the install
succeeds, and the run ends with no error. -/
theorem update_patchFallback_witness :
    Updater.update sampleUpdater (strBytes ("linux-amd64"))
      ⟨true, true, .decoded (strBytes ("2.0.0")) (sha256Bytes []),
       ⟨fun _ => .error (.msg 2), fun _ _ => .error (.msg 3)⟩,
       ⟨fun _ => .ok [], fun _ => .ok []⟩,
       [], (none, none)⟩ =
      (none, { sampleUpdater with Info := ⟨strBytes ("2.0.0"), sha256Bytes []⟩ },
        [Cap.patchFetch, Cap.fullFetch, Cap.install]) :=
  update_patchFallback _ _ _ _ _ (.wrapped (.wrapped (.msg 2))) []
    rfl rfl rfl (by decide) (by decide) rfl rfl (by decide) rfl

/-- C5: when the full-binary path yields bytes whose digest differs from
the expected one, update returns the wrapped ErrHashMismatch, whose cause
is the hash-mismatch error, and the install capability is never invoked. -/
theorem update_fullBinMismatch (u : Updater) (plat : GoStr) (env : UpdateEnv)
    (v : GoStr) (sha : Bytes) (e : GoErr) (bin : Bytes)
    (h1 : env.execPathOk = true) (h2 : env.openOk = true)
    (h3 : env.infoResp = .decoded v sha) (h4 : sha.length = 32)
    (h5 : v ≠ u.CurrentVersion)
    (hp : (Updater.fetchAndVerifyPatch { u with Info := ⟨v, sha⟩ } plat
        env.patchEnv env.oldBin).1 = .error e)
    (hf : Updater.fetchBin { u with Info := ⟨v, sha⟩ } plat env.binEnv = .ok bin)
    (hv : verifySha bin sha = false) :
    u.update plat env =
      (some (.wrapped .hashMismatch), { u with Info := ⟨v, sha⟩ },
        [Cap.patchFetch, Cap.fullFetch]) ∧
    GoErr.cause (.wrapped .hashMismatch) = .hashMismatch ∧
    Cap.install ∉ (u.update plat env).2.2 := by
  have hmain : u.update plat env =
      (some (.wrapped .hashMismatch), { u with Info := ⟨v, sha⟩ },
        [Cap.patchFetch, Cap.fullFetch]) := by
    unfold Updater.update Updater.fetchInfo
    rw [h1, h2, h3]
    simp [h4, h5]
    rw [hp]
    unfold Updater.fetchAndVerifyFullBin
    rw [hf]
    simp [hv]
  refine ⟨hmain, rfl, ?_⟩
  rw [hmain]
  simp

/-- Witness for C5: the full binary is the empty buffer but the metadata
expects the all-zero digest, so the run fails with the wrapped
hash-mismatch error and never reaches the install capability. -/
theorem update_fullBinMismatch_witness :
    Updater.update sampleUpdater (strBytes ("linux-amd64"))
      ⟨true, true, .decoded (strBytes ("2.0.0")) (List.replicate 32 0),
       ⟨fun _ => .error (.msg 2), fun _ _ => .error (.msg 3)⟩,
       ⟨fun _ => .ok [], fun _ => .ok []⟩,
       [], (none, none)⟩ =
      (some (.wrapped .hashMismatch),
        { sampleUpdater with Info := ⟨strBytes ("2.0.0"), List.replicate 32 0⟩ },
        [Cap.patchFetch, Cap.fullFetch]) ∧
    GoErr.cause (.wrapped .hashMismatch) = .hashMismatch ∧
    Cap.install ∉ (Updater.update sampleUpdater (strBytes ("linux-amd64"))
      ⟨true, true, .decoded (strBytes ("2.0.0")) (List.replicate 32 0),
       ⟨fun _ => .error (.msg 2), fun _ _ => .error (.msg 3)⟩,
       ⟨fun _ => .ok [], fun _ => .ok []⟩,
       [], (none, none)⟩).2.2 :=
  update_fullBinMismatch _ _ _ _ _ (.wrapped (.wrapped (.msg 2))) []
    rfl rfl rfl (by decide) (by decide) rfl rfl (by decide)
